import Mathlib

/-!
A shallow embedding of the agiverse-js smart-building client
(src/smart_building/smart_building.ts).  The SmartBuilding class is
modelled as a state record; its methods become state transformers that
additionally return the list of observable effects (log lines, websocket
sends, EventEmitter emissions, handler invocations, scheduled timers)
they perform.  JSON.parse of a raw inbound frame is abstracted as an
`Except String Json` input: `Except.ok j` is a successful parse
producing the JSON value `j`, `Except.error e` is a parse that threw.
JavaScript property access semantics (undefined for a missing property,
TypeError on null/undefined receivers) are modelled explicitly.
-/

/-- JSON values as produced by JSON.parse (no undefined member:
JSON.parse never yields it; undefined-ness arising from property access
is an `Option Json` with `none`). -/
inductive Json where
  | null : Json
  | bool : Bool → Json
  | num : Int → Json
  | str : String → Json
  | arr : List Json → Json
  | obj : List (String × Json) → Json

mutual
/-- JavaScript String(v) coercion used when a value is employed as an
object property key (the read `this.actionHandlers[actionName]`).
Arrays join their elements with commas (null elements become the empty
string), objects print as `[object Object]`. -/
def jsToString : Json → String
  | Json.null => "null"
  | Json.bool true => "true"
  | Json.bool false => "false"
  | Json.num n => toString n
  | Json.str s => s
  | Json.arr xs => jsArrJoin xs
  | Json.obj _ => "[object Object]"

/-- Element-wise comma join for the array case of `jsToString`. -/
def jsArrJoin : List Json → String
  | [] => ""
  | [Json.null] => ""
  | [x] => jsToString x
  | Json.null :: y :: rest => "," ++ jsArrJoin (y :: rest)
  | x :: y :: rest => jsToString x ++ "," ++ jsArrJoin (y :: rest)
end

/-- JavaScript property-key coercion of a possibly-undefined value:
undefined stringifies to the key `undefined`. -/
def jsKeyString : Option Json → String
  | none => "undefined"
  | some v => jsToString v

/-- JavaScript property access `v.k`: throws a TypeError when the
receiver is undefined or null; yields undefined for primitives and for
objects lacking the key. -/
def jsField : Option Json → String → Except String (Option Json)
  | none, _ => Except.error ("TypeError")
  | some Json.null, _ => Except.error ("TypeError")
  | some (Json.obj fields), k =>
      Except.ok ((fields.find? (fun p => p.1 == k)).map Prod.snd)
  | some _, _ => Except.ok none

/-- JavaScript strict equality of a value against a string literal. -/
def isStr : Option Json → String → Bool
  | some (Json.str t), s => t == s
  | _, _ => false

/-- Association-list lookup mirroring a JavaScript object property read. -/
def alistLookup {α : Type} (k : String) : List (String × α) → Option α
  | [] => none
  | (k', v) :: rest => if k' = k then some v else alistLookup k rest

/-- Association-list write mirroring JavaScript object property
assignment: an existing key keeps its position and gets the new value, a
fresh key is appended (JS objects preserve string-key insertion order). -/
def alistSet {α : Type} (l : List (String × α)) (k : String) (v : α) :
    List (String × α) :=
  match l with
  | [] => [(k, v)]
  | (k', v') :: rest =>
      if k' = k then (k, v) :: rest else (k', v') :: alistSet rest k v

/-- The transport connection (a WebSocket in the source); only the URI
it was opened with is observable to this model. -/
structure Conn where
  uri : String
deriving DecidableEq

/-- Modelled from the spec: the ActionContext collaborator
(src/smart_building/context, a repository file not present under the
provided sources) is out of scope and consumed as an opaque reply
capability; the model records the constructor arguments the core passes
to it — the playerID, playerName, actionID and action-name fields of the
message and the current connection.  The building reference itself is
not recorded, keeping the state first-order. -/
structure ActionContext where
  playerId : Option Json
  playerName : Option Json
  ws : Option Conn
  actionId : Option Json
  actionName : Option Json

/-- The argument shapes with which the router can call a registered
callback: context and payload for a two-parameter callback; context,
payload and payment for a three-parameter one. -/
inductive CallArgs where
  | two : ActionContext → Option Json → CallArgs
  | three : ActionContext → Option Json → Option Json → CallArgs

/-- A registered callback: a JavaScript Function is observable here
through its declared parameter count (Function.length, the field
`arity`) and its behaviour when applied (`run`), which may throw
(`Except.error`).  Handlers in this model perform no state mutation of
their own. -/
structure Handler where
  arity : Nat
  run : CallArgs → Except String Unit

/-- The ActionHandler interface of the source: the callback plus its
payload/payment description strings. -/
structure ActionHandler where
  func : Handler
  payloadDescription : String
  paymentDescription : String

/-- Structured stand-ins for the console.log / console.warn /
console.error calls of the source. -/
inductive LogMsg where
  | connectionEstablished : LogMsg
  | connectionClosedReconnecting : LogMsg
  | wsError : String → LogMsg
  | handlerUnexpectedParams : String → LogMsg
  | noHandlerFor : String → LogMsg
  | failedToHandle : String → LogMsg

/-- Observable effects of the client. -/
inductive Event where
  | log : LogMsg → Event
  | sendMsg : Json → Event
  | emitReady : Event
  | emitBuildingInfo : Option Json → Event
  | emitPlayers : Option Json → Event
  | invokeHandler : String → CallArgs → Event
  | scheduleReconnect : Int → Event
  | closeConn : Event

/-- The SmartBuilding class state.  `players` and `buildingInfo` are
`Option Json` because a building/players frame with an absent data
property assigns undefined to them. -/
structure SmartBuilding where
  apiKey : String
  buildingId : Int
  players : Option Json
  buildingInfo : Option Json
  wsEndpoint : String
  ws : Option Conn
  reconnectInterval : Int
  actionHandlers : List (String × ActionHandler)

/-- Modelled from the spec: DEFAULT_WS_ENDPOINT is exported by the
repository file src/common/const, which is not present under the
provided sources; the spec describes it as a well-known constant default
endpoint URI.  Its concrete value does not affect any claim. -/
def DEFAULT_WS_ENDPOINT : String := "wss://backend.agiverse.io/ws"

/-- Constructor options; `Option` marks the optional fields. -/
structure SBOptions where
  apiKey : String
  buildingId : Int
  wsEndpoint : Option String
  reconnectInterval : Option Int

/-- JavaScript or-default on an optional string: undefined and the
empty string are falsy. -/
def jsOrStr : Option String → String → String
  | none, d => d
  | some s, d => if s = "" then d else s

/-- JavaScript or-default on an optional number: undefined and zero are
falsy. -/
def jsOrInt : Option Int → Int → Int
  | none, d => d
  | some n, d => if n = 0 then d else n

/-- The SmartBuilding constructor. -/
def mkSmartBuilding (options : SBOptions) : SmartBuilding :=
  { apiKey := options.apiKey
    buildingId := options.buildingId
    wsEndpoint := jsOrStr options.wsEndpoint DEFAULT_WS_ENDPOINT
    reconnectInterval := jsOrInt options.reconnectInterval 5000
    players := some (Json.arr [])
    buildingInfo := some (Json.obj [])
    ws := none
    actionHandlers := [] }

/-- Argument of the `action` registration method. -/
structure ActionConfig where
  action : String
  payloadDescription : Option String
  paymentDescription : Option String

/-- The `action` method: register (or overwrite) an action handler. -/
def SmartBuilding.action (st : SmartBuilding) (config : ActionConfig)
    (handler : Handler) : SmartBuilding :=
  { st with
    actionHandlers := alistSet st.actionHandlers config.action
      { func := handler
        payloadDescription := jsOrStr config.payloadDescription ("")
        paymentDescription := jsOrStr config.paymentDescription ("") } }

/-- The connection URI built by `connect`. -/
def SmartBuilding.wsUri (st : SmartBuilding) : String :=
  st.wsEndpoint ++ "?type=building&api-key=" ++ st.apiKey ++
    "&building-id=" ++ toString st.buildingId

/-- `connect`: open a fresh transport on the connection URI and make it
current.  Listener installation itself has no observable effect; the
listener bodies are modelled by `onOpen`, `handleMessage`, `onClose`
and `onError` below. -/
def SmartBuilding.connect (st : SmartBuilding) : SmartBuilding × List Event :=
  ({ st with ws := some { uri := st.wsUri } }, [])

/-- `run`: start the client (delegates to `connect`). -/
def SmartBuilding.run (st : SmartBuilding) : SmartBuilding × List Event :=
  st.connect

/-- The serialisation of the registry performed by the open listener
(the reduce over Object.keys of the registry): in key insertion order,
map each action name to the object carrying its payload and payment
descriptions. -/
def serializeActions (handlers : List (String × ActionHandler)) :
    List (String × Json) :=
  handlers.map (fun p =>
    (p.1, Json.obj [("payload", Json.str p.2.payloadDescription),
                    ("payment", Json.str p.2.paymentDescription)]))

/-- The registerActions wire message sent on open. -/
def registerActionsMessage (handlers : List (String × ActionHandler)) : Json :=
  Json.obj [("type", Json.str ("registerActions")),
            ("data", Json.obj [("actions", Json.obj (serializeActions handlers))])]

/-- The transport open listener: log, send the serialized registry (the
optional-chained send is skipped when `ws` is null), emit ready. -/
def SmartBuilding.onOpen (st : SmartBuilding) : SmartBuilding × List Event :=
  (st,
    [Event.log LogMsg.connectionEstablished] ++
    (match st.ws with
     | some _ => [Event.sendMsg (registerActionsMessage st.actionHandlers)]
     | none => []) ++
    [Event.emitReady])

/-- The transport close listener: warn and schedule a reconnect after
`reconnectInterval`. -/
def SmartBuilding.onClose (st : SmartBuilding) : SmartBuilding × List Event :=
  (st, [Event.log LogMsg.connectionClosedReconnecting,
        Event.scheduleReconnect st.reconnectInterval])

/-- The transport error listener: log the error and force-close the
transport (the optional-chained close is skipped when `ws` is null). -/
def SmartBuilding.onError (st : SmartBuilding) (e : String) :
    SmartBuilding × List Event :=
  (st,
    [Event.log (LogMsg.wsError e)] ++
    (match st.ws with
     | some _ => [Event.closeConn]
     | none => []))

/-- Application of a registered callback with the chosen argument shape:
the invocation itself is observable, and a synchronous throw from the
callback propagates (to the enclosing try of `handleMessage`). -/
def invokeWith (key : String) (st : SmartBuilding) (f : Handler)
    (args : CallArgs) :
    Except (String × List Event) (SmartBuilding × List Event) :=
  match f.run args with
  | Except.ok _ => Except.ok (st, [Event.invokeHandler key args])
  | Except.error e => Except.error (e, [Event.invokeHandler key args])

/-- The body of `handleMessage` inside its try: routing of a parsed
message.  An `Except.error` is a thrown exception, paired with the
effects already performed before the throw (handler entry precedes a
handler throw).  No state mutation ever precedes a throw in this body,
so the catch resumes from the original state. -/
def handleParsed (st : SmartBuilding) (msg : Json) :
    Except (String × List Event) (SmartBuilding × List Event) :=
  match jsField (some msg) ("type") with
  | Except.error e => Except.error (e, [])
  | Except.ok msgType =>
    if isStr msgType ("building") then
      match jsField (some msg) ("data") with
      | Except.error e => Except.error (e, [])
      | Except.ok d =>
          Except.ok ({ st with buildingInfo := d }, [Event.emitBuildingInfo d])
    else if isStr msgType ("players") then
      match jsField (some msg) ("data") with
      | Except.error e => Except.error (e, [])
      | Except.ok d =>
          Except.ok ({ st with players := d }, [Event.emitPlayers d])
    else if isStr msgType ("action") then
      match jsField (some msg) ("data") with
      | Except.error e => Except.error (e, [])
      | Except.ok d =>
        match jsField d ("action") with
        | Except.error e => Except.error (e, [])
        | Except.ok actionName =>
          match alistLookup (jsKeyString actionName) st.actionHandlers with
          | some handler =>
            match jsField d ("playerID"), jsField d ("playerName"),
                  jsField d ("actionID"), jsField d ("payload"),
                  jsField d ("payment") with
            | Except.ok pID, Except.ok pName, Except.ok aID,
              Except.ok payload, Except.ok payment =>
                let ctx : ActionContext :=
                  { playerId := pID, playerName := pName, ws := st.ws,
                    actionId := aID, actionName := actionName }
                if handler.func.arity = 2 then
                  invokeWith (jsKeyString actionName) st handler.func
                    (CallArgs.two ctx payload)
                else if handler.func.arity = 3 then
                  invokeWith (jsKeyString actionName) st handler.func
                    (CallArgs.three ctx payload payment)
                else
                  Except.ok (st,
                    [Event.log (LogMsg.handlerUnexpectedParams
                      (jsKeyString actionName))])
            | _, _, _, _, _ =>
                -- unreachable: the receiver of these reads is the same
                -- object whose read of the action key just succeeded
                Except.error ("TypeError", [])
          | none =>
              Except.ok (st,
                [Event.log (LogMsg.noHandlerFor (jsKeyString actionName))])
    else
      Except.ok (st, [])

/-- `handleMessage`: parse (abstracted as the `Except` input) and route;
any throw is caught and logged, leaving the state as it was. -/
def SmartBuilding.handleMessage (st : SmartBuilding)
    (parseResult : Except String Json) : SmartBuilding × List Event :=
  match parseResult with
  | Except.error e => (st, [Event.log (LogMsg.failedToHandle e)])
  | Except.ok msg =>
    match handleParsed st msg with
    | Except.ok res => res
    | Except.error (e, evs) => (st, evs ++ [Event.log (LogMsg.failedToHandle e)])

/-- An inbound building frame with payload `d` (spec section 6 wire
format). -/
def buildingMsg (d : Json) : Json :=
  Json.obj [("type", Json.str ("building")), ("data", d)]

/-- An inbound players frame with payload `d`. -/
def playersMsg (d : Json) : Json :=
  Json.obj [("type", Json.str ("players")), ("data", d)]

/-- An inbound action frame carrying all the fields of the spec wire
format. -/
def actionMsg (n : String) (pID pN aID payload payment : Json) : Json :=
  Json.obj [("type", Json.str ("action")),
            ("data", Json.obj [("action", Json.str n), ("playerID", pID),
                               ("playerName", pN), ("actionID", aID),
                               ("payload", payload), ("payment", payment)])]

/-- The context the router constructs for a dispatch of `actionMsg`. -/
def ctxOf (st : SmartBuilding) (n : String) (pID pN aID : Json) :
    ActionContext :=
  { playerId := some pID, playerName := some pN, ws := st.ws,
    actionId := some aID, actionName := some (Json.str n) }

/-- The type discriminator of a parse outcome, when it is a string. -/
def msgTypeOf : Except String Json → Option String
  | Except.error _ => none
  | Except.ok msg =>
    match jsField (some msg) ("type") with
    | Except.ok (some (Json.str s)) => some s
    | _ => none

/-- Whether an effect is merely a log line (no emission, no send, no
handler invocation, no timer). -/
def isLogEvent : Event → Bool
  | Event.log _ => true
  | _ => false

/-- Whether an effect is a websocket send. -/
def isSendEvent : Event → Bool
  | Event.sendMsg _ => true
  | _ => false

/-- One call of the `action` registration method. -/
structure Registration where
  config : ActionConfig
  handler : Handler

/-- A sequence of `action` registration calls, applied in order. -/
def registerAll (st : SmartBuilding) (regs : List Registration) :
    SmartBuilding :=
  regs.foldl (fun s r => s.action r.config r.handler) st

/-- The last registration of a sequence whose configured name is `n`. -/
def lastRegFor (regs : List Registration) (n : String) : Option Registration :=
  match regs with
  | [] => none
  | x :: rest =>
    match lastRegFor rest n with
    | some r => some r
    | none => if x.config.action = n then some x else none

/-- The registry entry a registration call stores. -/
def mkActionHandler (c : ActionConfig) (h : Handler) : ActionHandler :=
  { func := h
    payloadDescription := jsOrStr c.payloadDescription ("")
    paymentDescription := jsOrStr c.paymentDescription ("") }

/-- A two-parameter callback that returns normally. -/
def echoHandler2 : Handler := { arity := 2, run := fun _ => Except.ok () }

/-- A one-parameter callback that returns normally. -/
def greetHandler1 : Handler := { arity := 1, run := fun _ => Except.ok () }

/-- A two-parameter callback that throws synchronously. -/
def throwingHandler2 : Handler :=
  { arity := 2, run := fun _ => Except.error ("boom") }

/-- A freshly constructed client with default options. -/
def baseSt : SmartBuilding :=
  mkSmartBuilding
    { apiKey := "key", buildingId := 7, wsEndpoint := none,
      reconnectInterval := none }

/-- Registration configuration for the echo action. -/
def cfgEcho : ActionConfig :=
  { action := "echo", payloadDescription := some ("text"),
    paymentDescription := none }

/-- Client with the echo action registered (two-parameter handler). -/
def stEcho : SmartBuilding := baseSt.action cfgEcho echoHandler2

/-- The registry entry stored for the echo action. -/
def entryEcho : ActionHandler :=
  { func := echoHandler2, payloadDescription := "text",
    paymentDescription := "" }

/-- Client with a one-parameter handler registered under the greet
name. -/
def stGreet : SmartBuilding :=
  baseSt.action
    { action := "greet", payloadDescription := none,
      paymentDescription := none } greetHandler1

/-- Client with a synchronously throwing two-parameter handler
registered under the crash name. -/
def stThrow : SmartBuilding :=
  baseSt.action
    { action := "crash", payloadDescription := none,
      paymentDescription := none } throwingHandler2

/-- The registry entry stored for the crash action. -/
def entryThrow : ActionHandler :=
  { func := throwingHandler2, payloadDescription := "",
    paymentDescription := "" }

/-- A first registration of the echo name, later overwritten. -/
def regA : Registration :=
  { config := { action := "echo", payloadDescription := some ("old"),
                paymentDescription := none }
    handler := greetHandler1 }

/-- A second registration of the echo name, the one that must win. -/
def regB : Registration :=
  { config := { action := "echo", payloadDescription := some ("new"),
                paymentDescription := some ("1") }
    handler := echoHandler2 }

/-- A well-parsed frame whose type is none of building, players or
action. -/
def pingMsg : Json := Json.obj [("type", Json.str ("ping"))]

/-- A concrete action frame naming the greet action. -/
def greetFrame : Json :=
  actionMsg ("greet") (Json.num 1) (Json.str ("A")) (Json.str ("x1"))
    (Json.obj []) Json.null

theorem alistLookup_set_self {α : Type} (l : List (String × α)) (k : String)
    (v : α) : alistLookup k (alistSet l k v) = some v := by
  induction l with
  | nil => simp [alistSet, alistLookup]
  | cons p rest ih =>
    obtain ⟨k', v'⟩ := p
    by_cases h : k' = k
    · simp [alistSet, alistLookup, h]
    · simp [alistSet, alistLookup, h, ih]

theorem alistLookup_set_ne {α : Type} (l : List (String × α)) (k k' : String)
    (v : α) (h : k' ≠ k) :
    alistLookup k' (alistSet l k v) = alistLookup k' l := by
  induction l with
  | nil => simp [alistSet, alistLookup, Ne.symm h]
  | cons p rest ih =>
    obtain ⟨k0, v0⟩ := p
    by_cases hk : k0 = k
    · subst hk
      simp [alistSet, alistLookup, Ne.symm h]
    · simp only [alistSet, if_neg hk]
      by_cases hk' : k0 = k'
      · simp [alistLookup, hk']
      · simp [alistLookup, hk', ih]

theorem alistSet_keys {α : Type} (l : List (String × α)) (k : String) (v : α) :
    (alistSet l k v).map Prod.fst =
      if k ∈ l.map Prod.fst then l.map Prod.fst else l.map Prod.fst ++ [k] := by
  induction l with
  | nil => simp [alistSet]
  | cons p rest ih =>
    obtain ⟨k0, v0⟩ := p
    by_cases hk : k0 = k
    · subst hk
      simp [alistSet]
    · simp only [alistSet, if_neg hk, List.map_cons, ih]
      by_cases hm : k ∈ rest.map Prod.fst
      · simp [hm, Ne.symm hk]
      · simp [hm, Ne.symm hk]

theorem alistSet_keys_nodup {α : Type} (l : List (String × α)) (k : String)
    (v : α) (h : (l.map Prod.fst).Nodup) :
    ((alistSet l k v).map Prod.fst).Nodup := by
  rw [alistSet_keys]
  by_cases hm : k ∈ l.map Prod.fst
  · simpa [hm]
  · simpa [hm, List.nodup_append] using h

theorem alistSet_count_self {α : Type} (l : List (String × α)) (k : String)
    (v : α) (h : (l.map Prod.fst).Nodup) :
    ((alistSet l k v).map Prod.fst).count k = 1 := by
  rw [alistSet_keys]
  by_cases hm : k ∈ l.map Prod.fst
  · simpa [hm] using List.count_eq_one_of_mem h hm
  · simp [hm, List.count_append, List.count_eq_zero_of_not_mem hm]

theorem alistSet_count_ne {α : Type} (l : List (String × α)) (k k' : String)
    (v : α) (h : k' ≠ k) :
    ((alistSet l k v).map Prod.fst).count k' = (l.map Prod.fst).count k' := by
  rw [alistSet_keys]
  by_cases hm : k ∈ l.map Prod.fst
  · simp [hm]
  · simp [hm, List.count_append, List.count_eq_zero, h]

theorem lastRegFor_eq_none {regs : List Registration} {n : String}
    (h : lastRegFor regs n = none) : ∀ r ∈ regs, r.config.action ≠ n := by
  induction regs with
  | nil => simp
  | cons x rest ih =>
    intro r hr
    simp only [lastRegFor] at h
    rcases hx : lastRegFor rest n with _ | r'
    · rw [hx] at h
      rw [List.mem_cons] at hr
      rcases hr with hr1 | hr1
      · subst hr1
        intro hc
        rw [if_pos hc] at h
        exact Option.noConfusion h
      · exact ih hx r hr1
    · rw [hx] at h
      exact Option.noConfusion h

theorem registerAll_untouched (regs : List Registration) (n : String)
    (h : ∀ r ∈ regs, r.config.action ≠ n) :
    ∀ st : SmartBuilding,
      alistLookup n (registerAll st regs).actionHandlers
          = alistLookup n st.actionHandlers ∧
      ((registerAll st regs).actionHandlers.map Prod.fst).count n
          = (st.actionHandlers.map Prod.fst).count n := by
  induction regs with
  | nil => intro st; exact ⟨rfl, rfl⟩
  | cons x rest ih =>
    intro st
    have hx : x.config.action ≠ n := h x (List.mem_cons_self x rest)
    have hrest : ∀ r ∈ rest, r.config.action ≠ n :=
      fun r hr => h r (List.mem_cons_of_mem x hr)
    have step : registerAll st (x :: rest)
        = registerAll (st.action x.config x.handler) rest := rfl
    rw [step]
    obtain ⟨ih1, ih2⟩ := ih hrest (st.action x.config x.handler)
    constructor
    · rw [ih1]
      exact alistLookup_set_ne st.actionHandlers x.config.action n _ (Ne.symm hx)
    · rw [ih2]
      exact alistSet_count_ne st.actionHandlers x.config.action n _ (Ne.symm hx)

theorem registerAll_last (regs : List Registration) (n : String)
    (r : Registration) (hlast : lastRegFor regs n = some r) :
    ∀ st : SmartBuilding, (st.actionHandlers.map Prod.fst).Nodup →
      alistLookup n (registerAll st regs).actionHandlers
          = some (mkActionHandler r.config r.handler) ∧
      ((registerAll st regs).actionHandlers.map Prod.fst).count n = 1 := by
  induction regs with
  | nil => exact Option.noConfusion hlast
  | cons x rest ih =>
    intro st hnd
    have step : registerAll st (x :: rest)
        = registerAll (st.action x.config x.handler) rest := rfl
    have hnd' : ((st.action x.config x.handler).actionHandlers.map Prod.fst).Nodup :=
      alistSet_keys_nodup _ _ _ hnd
    rw [step]
    simp only [lastRegFor] at hlast
    rcases hx : lastRegFor rest n with _ | r'
    · rw [hx] at hlast
      by_cases hc : x.config.action = n
      · rw [if_pos hc] at hlast
        have hrx : x = r := Option.some.inj hlast
        subst hrx
        obtain ⟨u1, u2⟩ := registerAll_untouched rest n (lastRegFor_eq_none hx)
            (st.action x.config x.handler)
        constructor
        · rw [u1]
          subst hc
          exact alistLookup_set_self st.actionHandlers x.config.action
            (mkActionHandler x.config x.handler)
        · rw [u2]
          subst hc
          exact alistSet_count_self st.actionHandlers x.config.action _ hnd
      · rw [if_neg hc] at hlast
        exact Option.noConfusion hlast
    · rw [hx] at hlast
      have hr : r' = r := Option.some.inj hlast
      subst hr
      exact ih hx (st.action x.config x.handler) hnd'

theorem alistLookup_serializeActions (l : List (String × ActionHandler))
    (k : String) :
    alistLookup k (serializeActions l)
      = (alistLookup k l).map (fun h =>
          Json.obj [("payload", Json.str h.payloadDescription),
                    ("payment", Json.str h.paymentDescription)]) := by
  induction l with
  | nil => simp [serializeActions, alistLookup]
  | cons p rest ih =>
    obtain ⟨k0, v0⟩ := p
    by_cases hk : k0 = k
    · simp [serializeActions, alistLookup, hk]
    · simpa [serializeActions, alistLookup, hk] using ih

theorem serializeActions_keys (l : List (String × ActionHandler)) :
    (serializeActions l).map Prod.fst = l.map Prod.fst := by
  induction l with
  | nil => rfl
  | cons p rest ih =>
    simp [serializeActions] at ih ⊢

theorem isStr_eq_true (t : Option Json) (s : String) :
    isStr t s = true ↔ t = some (Json.str s) := by
  cases t with
  | none => simp [isStr]
  | some j =>
    cases j with
    | null => simp [isStr]
    | bool b => simp [isStr]
    | num n => simp [isStr]
    | str u =>
      constructor
      · intro h
        have hb : (u == s) = true := h
        rw [eq_of_beq hb]
      · intro h
        have hu : u = s := by
          injection h with h1
          injection h1
        simp [isStr, hu]
    | arr xs => simp [isStr]
    | obj fs => simp [isStr]

theorem invokeWith_ok (key : String) (st : SmartBuilding) (f : Handler)
    (args : CallArgs) (res : SmartBuilding × List Event)
    (h : invokeWith key st f args = Except.ok res) :
    res = (st, [Event.invokeHandler key args]) := by
  unfold invokeWith at h
  split at h
  · exact (Except.ok.inj h).symm
  · exact Except.noConfusion h

set_option maxHeartbeats 1600000 in
theorem handleParsed_frame (st : SmartBuilding) (msg : Json)
    (res : SmartBuilding × List Event) (h : handleParsed st msg = Except.ok res) :
    res.1.apiKey = st.apiKey ∧
    res.1.buildingId = st.buildingId ∧
    res.1.wsEndpoint = st.wsEndpoint ∧
    res.1.ws = st.ws ∧
    res.1.reconnectInterval = st.reconnectInterval ∧
    res.1.actionHandlers = st.actionHandlers ∧
    (res.1.buildingInfo = st.buildingInfo ∨
      jsField (some msg) ("type") = Except.ok (some (Json.str ("building")))) ∧
    (res.1.players = st.players ∨
      jsField (some msg) ("type") = Except.ok (some (Json.str ("players")))) := by
  unfold handleParsed at h
  repeat' (split at h)
  all_goals (first
    | exact Except.noConfusion h
    | (rcases invokeWith_ok _ _ _ _ _ h with rfl; simp_all [isStr_eq_true])
    | (obtain ⟨rfl⟩ := Except.ok.inj h; simp_all [isStr_eq_true]))

set_option maxHeartbeats 1600000 in
theorem handleParsed_other (st : SmartBuilding) (msg : Json)
    (h1 : msgTypeOf (Except.ok msg) ≠ some ("building"))
    (h2 : msgTypeOf (Except.ok msg) ≠ some ("players"))
    (h3 : msgTypeOf (Except.ok msg) ≠ some ("action")) :
    handleParsed st msg = Except.ok (st, []) ∨
      ∃ e, handleParsed st msg = Except.error (e, []) := by
  unfold handleParsed
  repeat' split
  all_goals simp_all [msgTypeOf, isStr_eq_true]

theorem msgTypeOf_jsField (m : Json) (s : String)
    (h : jsField (some m) ("type") = Except.ok (some (Json.str s))) :
    msgTypeOf (Except.ok m) = some s := by
  simp [msgTypeOf, h]

/-- C1 counterexample: the claim states that a one-parameter handler is
called as (context); on a client whose registered greet handler declares
one parameter, dispatching a matching action frame produces only the
unexpected-parameter-count warning and the handler is never invoked (no
invocation effect occurs). -/
theorem c1_one_param_counterexample :
    SmartBuilding.handleMessage stGreet (Except.ok greetFrame)
      = (stGreet, [Event.log (LogMsg.handlerUnexpectedParams ("greet"))]) := by
  rfl

/-- C1 (amended): for an inbound action frame whose name is registered,
a two-parameter handler is called as (context, payload) with the frame
payload and no payment argument, a three-parameter handler as (context,
payload, payment) with the frame fields, and any other declared
parameter count — one included — produces a warning and the handler is
not invoked; in all three cases the state is unchanged. -/
theorem c1_arity_dispatch (st : SmartBuilding) (n : String)
    (pID pN aID payload payment : Json) (entry : ActionHandler)
    (h : alistLookup n st.actionHandlers = some entry) :
    (entry.func.arity = 2 →
      entry.func.run (CallArgs.two (ctxOf st n pID pN aID) (some payload))
          = Except.ok () →
      SmartBuilding.handleMessage st
          (Except.ok (actionMsg n pID pN aID payload payment))
        = (st, [Event.invokeHandler n
            (CallArgs.two (ctxOf st n pID pN aID) (some payload))])) ∧
    (entry.func.arity = 3 →
      entry.func.run (CallArgs.three (ctxOf st n pID pN aID) (some payload)
            (some payment))
          = Except.ok () →
      SmartBuilding.handleMessage st
          (Except.ok (actionMsg n pID pN aID payload payment))
        = (st, [Event.invokeHandler n
            (CallArgs.three (ctxOf st n pID pN aID) (some payload)
              (some payment))])) ∧
    (entry.func.arity ≠ 2 → entry.func.arity ≠ 3 →
      SmartBuilding.handleMessage st
          (Except.ok (actionMsg n pID pN aID payload payment))
        = (st, [Event.log (LogMsg.handlerUnexpectedParams n)])) := by
  refine ⟨fun ha hr => ?_, fun ha hr => ?_, fun ha2 ha3 => ?_⟩
  · simp only [ctxOf] at hr
    simp [SmartBuilding.handleMessage, handleParsed, invokeWith, actionMsg,
          jsField, isStr, jsKeyString, jsToString, h, ha, hr, ctxOf]
  · simp only [ctxOf] at hr
    simp [SmartBuilding.handleMessage, handleParsed, invokeWith, actionMsg,
          jsField, isStr, jsKeyString, jsToString, h, ha, hr, ctxOf]
  · simp [SmartBuilding.handleMessage, handleParsed, actionMsg, jsField,
          isStr, jsKeyString, jsToString, h, ha2, ha3]

/-- Witness for C1: the concrete echo client dispatches a matching
frame to its two-parameter handler as (context, payload). -/
theorem c1_arity_dispatch_witness :
    SmartBuilding.handleMessage stEcho
        (Except.ok (actionMsg ("echo") (Json.num 1) (Json.str ("A"))
          (Json.str ("x1")) (Json.obj []) Json.null))
      = (stEcho, [Event.invokeHandler ("echo")
          (CallArgs.two (ctxOf stEcho ("echo") (Json.num 1) (Json.str ("A"))
            (Json.str ("x1"))) (some (Json.obj [])))]) :=
  (c1_arity_dispatch stEcho ("echo") (Json.num 1) (Json.str ("A"))
    (Json.str ("x1")) (Json.obj []) Json.null entryEcho rfl).1 rfl rfl

/-- C2: on the connection opened by connect, the open listener sends
exactly one message, the registerActions announcement of the current
registry; its actions mapping has exactly the registry names as keys,
each name mapped to the object of the registered payload and payment
descriptions, and a registration with omitted descriptions serializes to
empty strings. -/
theorem c2_register_announcement (st : SmartBuilding) (n : String)
    (entry : ActionHandler) (cfg : ActionConfig) (hd : Handler)
    (h : alistLookup n st.actionHandlers = some entry) :
    ((st.connect.1).onOpen).2.filter isSendEvent
        = [Event.sendMsg (registerActionsMessage st.actionHandlers)] ∧
    (serializeActions st.actionHandlers).map Prod.fst
        = st.actionHandlers.map Prod.fst ∧
    alistLookup n (serializeActions st.actionHandlers)
        = some (Json.obj [("payload", Json.str entry.payloadDescription),
                          ("payment", Json.str entry.paymentDescription)]) ∧
    alistLookup cfg.action
        (serializeActions (st.action cfg hd).actionHandlers)
        = some (Json.obj
            [("payload", Json.str (jsOrStr cfg.payloadDescription (""))),
             ("payment", Json.str (jsOrStr cfg.paymentDescription ("")))]) := by
  refine ⟨rfl, serializeActions_keys _, ?_, ?_⟩
  · rw [alistLookup_serializeActions, h]
    rfl
  · rw [alistLookup_serializeActions]
    simp [SmartBuilding.action, alistLookup_set_self, mkActionHandler]

/-- Witness for C2: the echo client serializes its single registration
with the registered description and the defaulted empty payment
description. -/
theorem c2_register_announcement_witness :
    alistLookup ("echo") (serializeActions stEcho.actionHandlers)
      = some (Json.obj [("payload", Json.str entryEcho.payloadDescription),
                        ("payment", Json.str entryEcho.paymentDescription)]) :=
  (c2_register_announcement stEcho ("echo") entryEcho cfgEcho echoHandler2
    rfl).2.2.1

/-- C3: over any sequence of registrations, a name maps afterwards to
the handler and descriptions of its last registration, that name occurs
exactly once in the registry keys (so exactly once in the next
serialized announcement), and the announcement carries the last
descriptions; registration never fails. -/
theorem c3_last_registration_wins (st : SmartBuilding)
    (regs : List Registration) (n : String) (r : Registration)
    (hnd : (st.actionHandlers.map Prod.fst).Nodup)
    (hlast : lastRegFor regs n = some r) :
    alistLookup n (registerAll st regs).actionHandlers
        = some (mkActionHandler r.config r.handler) ∧
    ((registerAll st regs).actionHandlers.map Prod.fst).count n = 1 ∧
    alistLookup n (serializeActions (registerAll st regs).actionHandlers)
        = some (Json.obj
            [("payload", Json.str (jsOrStr r.config.payloadDescription (""))),
             ("payment", Json.str (jsOrStr r.config.paymentDescription ("")))]) := by
  obtain ⟨l1, l2⟩ := registerAll_last regs n r hlast st hnd
  refine ⟨l1, l2, ?_⟩
  rw [alistLookup_serializeActions, l1]
  rfl

/-- Witness for C3: registering the echo name twice on a fresh client
leaves the second registration in the registry. -/
theorem c3_last_registration_wins_witness :
    alistLookup ("echo") (registerAll baseSt [regA, regB]).actionHandlers
      = some (mkActionHandler regB.config regB.handler) :=
  (c3_last_registration_wins baseSt [regA, regB] ("echo") regB (by simp [baseSt,
    mkSmartBuilding]) rfl).1

/-- C4: a frame that fails to parse is caught and logged with the state
— building info, roster and registry — unchanged, a subsequent
well-formed players frame is routed and fully replaces the roster, and
more generally any throw inside routing is caught, logged, and leaves
the state unchanged. -/
theorem c4_malformed_frame_recovery (st : SmartBuilding) (e : String)
    (d : Json) :
    SmartBuilding.handleMessage st (Except.error e)
        = (st, [Event.log (LogMsg.failedToHandle e)]) ∧
    SmartBuilding.handleMessage
        (SmartBuilding.handleMessage st (Except.error e)).1
        (Except.ok (playersMsg d))
        = ({ st with players := some d }, [Event.emitPlayers (some d)]) ∧
    (∀ (msg : Json) (e2 : String) (evs : List Event),
      handleParsed st msg = Except.error (e2, evs) →
      SmartBuilding.handleMessage st (Except.ok msg)
        = (st, evs ++ [Event.log (LogMsg.failedToHandle e2)])) := by
  refine ⟨rfl, rfl, ?_⟩
  intro msg e2 evs h
  simp [SmartBuilding.handleMessage, h]

/-- Witness for C4: a parse failure on the fresh client is logged with
the state unchanged, and a frame whose routing throws (a null message)
is also caught and logged. -/
theorem c4_malformed_frame_recovery_witness :
    SmartBuilding.handleMessage baseSt (Except.error ("Unexpected end of JSON input"))
        = (baseSt, [Event.log (LogMsg.failedToHandle ("Unexpected end of JSON input"))]) ∧
    SmartBuilding.handleMessage baseSt (Except.ok Json.null)
        = (baseSt, [Event.log (LogMsg.failedToHandle ("TypeError"))]) :=
  ⟨(c4_malformed_frame_recovery baseSt ("Unexpected end of JSON input") Json.null).1,
   (c4_malformed_frame_recovery baseSt ("Unexpected end of JSON input") Json.null).2.2
     Json.null ("TypeError") [] rfl⟩

/-- C5: an inbound action frame naming an unregistered action invokes no
handler, logs a warning, raises nothing, sends no reply and changes no
state. -/
theorem c5_unregistered_action_dropped (st : SmartBuilding) (n : String)
    (pID pN aID payload payment : Json)
    (h : alistLookup n st.actionHandlers = none) :
    SmartBuilding.handleMessage st
        (Except.ok (actionMsg n pID pN aID payload payment))
      = (st, [Event.log (LogMsg.noHandlerFor n)]) := by
  simp [SmartBuilding.handleMessage, handleParsed, actionMsg, jsField, isStr,
        jsKeyString, jsToString, h]

/-- Witness for C5: the fresh client drops an action frame for a name it
never registered. -/
theorem c5_unregistered_action_dropped_witness :
    SmartBuilding.handleMessage baseSt
        (Except.ok (actionMsg ("missing") (Json.num 1) (Json.str ("A"))
          (Json.str ("x1")) (Json.obj []) Json.null))
      = (baseSt, [Event.log (LogMsg.noHandlerFor ("missing"))]) :=
  c5_unregistered_action_dropped baseSt ("missing") (Json.num 1) (Json.str ("A"))
    (Json.str ("x1")) (Json.obj []) Json.null rfl

/-- C6: a building frame fully replaces the cached building info with
its data and emits the buildingInfo notification carrying the new value;
a players frame likewise fully replaces the roster and emits the players
notification with the new value. -/
theorem c6_snapshot_replacement (st : SmartBuilding) (d d' : Json) :
    SmartBuilding.handleMessage st (Except.ok (buildingMsg d))
        = ({ st with buildingInfo := some d },
           [Event.emitBuildingInfo (some d)]) ∧
    SmartBuilding.handleMessage st (Except.ok (playersMsg d'))
        = ({ st with players := some d' }, [Event.emitPlayers (some d')]) :=
  ⟨rfl, rfl⟩

/-- C7: the close listener schedules exactly one reconnect whose delay
equals the configured reconnect interval (so no earlier than it), and
the open listener of a newly connected transport sends exactly one
message: the full registerActions announcement of the then-current
registry. -/
theorem c7_reconnect_schedule (st st' : SmartBuilding) :
    st.onClose = (st, [Event.log LogMsg.connectionClosedReconnecting,
                       Event.scheduleReconnect st.reconnectInterval]) ∧
    ((st'.connect.1).onOpen).2.filter isSendEvent
        = [Event.sendMsg (registerActionsMessage st'.actionHandlers)] :=
  ⟨rfl, rfl⟩

/-- C8: a well-parsed frame whose type is none of building, players or
action leaves the state unchanged and produces at most log effects (no
handler invocation, no notification, no send); and in general every
handleMessage call preserves every field except possibly the single
cached field named by the frame type. -/
theorem c8_unknown_type_ignored (st : SmartBuilding) (msg : Json)
    (h1 : msgTypeOf (Except.ok msg) ≠ some ("building"))
    (h2 : msgTypeOf (Except.ok msg) ≠ some ("players"))
    (h3 : msgTypeOf (Except.ok msg) ≠ some ("action")) :
    ((SmartBuilding.handleMessage st (Except.ok msg)).1 = st ∧
     (SmartBuilding.handleMessage st (Except.ok msg)).2.all isLogEvent
        = true) ∧
    (∀ (st2 : SmartBuilding) (pr : Except String Json),
      (SmartBuilding.handleMessage st2 pr).1.apiKey = st2.apiKey ∧
      (SmartBuilding.handleMessage st2 pr).1.buildingId = st2.buildingId ∧
      (SmartBuilding.handleMessage st2 pr).1.wsEndpoint = st2.wsEndpoint ∧
      (SmartBuilding.handleMessage st2 pr).1.ws = st2.ws ∧
      (SmartBuilding.handleMessage st2 pr).1.reconnectInterval
          = st2.reconnectInterval ∧
      (SmartBuilding.handleMessage st2 pr).1.actionHandlers
          = st2.actionHandlers ∧
      ((SmartBuilding.handleMessage st2 pr).1.buildingInfo = st2.buildingInfo ∨
        msgTypeOf pr = some ("building")) ∧
      ((SmartBuilding.handleMessage st2 pr).1.players = st2.players ∨
        msgTypeOf pr = some ("players"))) := by
  constructor
  · rcases handleParsed_other st msg h1 h2 h3 with hok | ⟨e, herr⟩
    · simp [SmartBuilding.handleMessage, hok, isLogEvent]
    · simp [SmartBuilding.handleMessage, herr, isLogEvent]
  · intro st2 pr
    cases pr with
    | error e => simp [SmartBuilding.handleMessage, msgTypeOf]
    | ok m =>
      cases hP : handleParsed st2 m with
      | ok res =>
        have hm : SmartBuilding.handleMessage st2 (Except.ok m) = res := by
          simp [SmartBuilding.handleMessage, hP]
        have hf := handleParsed_frame st2 m res hP
        rw [hm]
        refine ⟨hf.1, hf.2.1, hf.2.2.1, hf.2.2.2.1, hf.2.2.2.2.1,
          hf.2.2.2.2.2.1, ?_, ?_⟩
        · rcases hf.2.2.2.2.2.2.1 with hb | hb
          · exact Or.inl hb
          · exact Or.inr (msgTypeOf_jsField m ("building") hb)
        · rcases hf.2.2.2.2.2.2.2 with hb | hb
          · exact Or.inl hb
          · exact Or.inr (msgTypeOf_jsField m ("players") hb)
      | error ee =>
        obtain ⟨e2, evs⟩ := ee
        have hm : SmartBuilding.handleMessage st2 (Except.ok m)
            = (st2, evs ++ [Event.log (LogMsg.failedToHandle e2)]) := by
          simp [SmartBuilding.handleMessage, hP]
        rw [hm]
        simp

/-- Witness for C8: a ping frame on the fresh client changes nothing and
produces only log effects. -/
theorem c8_unknown_type_ignored_witness :
    (SmartBuilding.handleMessage baseSt (Except.ok pingMsg)).1 = baseSt ∧
    (SmartBuilding.handleMessage baseSt (Except.ok pingMsg)).2.all isLogEvent
        = true :=
  (c8_unknown_type_ignored baseSt pingMsg (by decide) (by decide)
    (by decide)).1

/-- C9: construction treats falsy options as absent — a zero reconnect
interval yields the default 5000 and an empty endpoint yields the
default well-known endpoint, exactly as the absent options do — and
afterwards the registry is empty, the roster is the empty array, the
building info is the empty object and no connection exists until run is
called, which then creates one. -/
theorem c9_constructor_defaults (k : String) (b : Int) :
    (mkSmartBuilding ⟨k, b, some (""), some 0⟩).reconnectInterval = 5000 ∧
    (mkSmartBuilding ⟨k, b, some (""), some 0⟩).wsEndpoint
        = DEFAULT_WS_ENDPOINT ∧
    (mkSmartBuilding ⟨k, b, none, none⟩).reconnectInterval = 5000 ∧
    (mkSmartBuilding ⟨k, b, none, none⟩).wsEndpoint = DEFAULT_WS_ENDPOINT ∧
    (mkSmartBuilding ⟨k, b, some (""), some 0⟩).actionHandlers = [] ∧
    (mkSmartBuilding ⟨k, b, some (""), some 0⟩).players
        = some (Json.arr []) ∧
    (mkSmartBuilding ⟨k, b, some (""), some 0⟩).buildingInfo
        = some (Json.obj []) ∧
    (mkSmartBuilding ⟨k, b, some (""), some 0⟩).ws = none ∧
    ((mkSmartBuilding ⟨k, b, some (""), some 0⟩).run).1.ws
        = some { uri := (mkSmartBuilding ⟨k, b, some (""), some 0⟩).wsUri } :=
  ⟨rfl, rfl, rfl, rfl, rfl, rfl, rfl, rfl, rfl⟩

/-- C10: when a registered handler throws synchronously during dispatch
of an action frame, the throw is caught by the enclosing try of the
router and logged, the call returns normally with the state — building
info, roster and registry — unchanged, and the only effects are the
handler entry and the error log. -/
theorem c10_handler_throw_contained (st : SmartBuilding) (n : String)
    (pID pN aID payload payment : Json) (entry : ActionHandler) (e : String)
    (h : alistLookup n st.actionHandlers = some entry) :
    (entry.func.arity = 2 →
      entry.func.run (CallArgs.two (ctxOf st n pID pN aID) (some payload))
          = Except.error e →
      SmartBuilding.handleMessage st
          (Except.ok (actionMsg n pID pN aID payload payment))
        = (st, [Event.invokeHandler n
                  (CallArgs.two (ctxOf st n pID pN aID) (some payload)),
                Event.log (LogMsg.failedToHandle e)])) ∧
    (entry.func.arity = 3 →
      entry.func.run (CallArgs.three (ctxOf st n pID pN aID) (some payload)
            (some payment))
          = Except.error e →
      SmartBuilding.handleMessage st
          (Except.ok (actionMsg n pID pN aID payload payment))
        = (st, [Event.invokeHandler n
                  (CallArgs.three (ctxOf st n pID pN aID) (some payload)
                    (some payment)),
                Event.log (LogMsg.failedToHandle e)])) := by
  refine ⟨fun ha hr => ?_, fun ha hr => ?_⟩
  · simp only [ctxOf] at hr
    simp [SmartBuilding.handleMessage, handleParsed, invokeWith, actionMsg,
          jsField, isStr, jsKeyString, jsToString, h, ha, hr, ctxOf]
  · simp only [ctxOf] at hr
    simp [SmartBuilding.handleMessage, handleParsed, invokeWith, actionMsg,
          jsField, isStr, jsKeyString, jsToString, h, ha, hr, ctxOf]

/-- Witness for C10: the client whose crash handler throws logs the
caught error and keeps its state. -/
theorem c10_handler_throw_contained_witness :
    SmartBuilding.handleMessage stThrow
        (Except.ok (actionMsg ("crash") (Json.num 1) (Json.str ("A"))
          (Json.str ("x1")) (Json.obj []) Json.null))
      = (stThrow, [Event.invokeHandler ("crash")
            (CallArgs.two (ctxOf stThrow ("crash") (Json.num 1) (Json.str ("A"))
              (Json.str ("x1"))) (some (Json.obj []))),
          Event.log (LogMsg.failedToHandle ("boom"))]) :=
  (c10_handler_throw_contained stThrow ("crash") (Json.num 1) (Json.str ("A"))
    (Json.str ("x1")) (Json.obj []) Json.null entryThrow ("boom") rfl).1 rfl rfl
